import Mathlib

/-!
# RunContext (internal/runcontext/runcontext.go)

A shallow embedding of the `runcontext` package: the `RunContext` record, its
constructor `NewRunContext`, and the memoising accessor `RunContext.GetConfig`.

Go pointers are `Option` values (`none` is `nil`; two pointers are the same when
the values are equal), the Go `error` interface is `Option Error`.  The two
effects of `GetConfig` are made explicit in a `World` value that is threaded
through every call: the text written to `os.Stderr` and the log of fetches
issued to the configuration manager.  The configuration
manager lives in `internal/config`, outside this package, so its behaviour is a
parameter (`Cluster`) over which every theorem quantifies.
-/

namespace RunContextSpec

/-! ## Collaborator types -/

/-- Modelled from the spec: `k8s.Kube`, the opaque cluster client handle. -/
structure Kube where
  id : Nat
  deriving DecidableEq, Repr

/-- Modelled from the spec: `chartfs.ChartFS`, the opaque chart filesystem handle. -/
structure ChartFS where
  id : Nat
  deriving DecidableEq, Repr

/-- Modelled from the spec: `slog.Logger`, the opaque structured logging sink. -/
structure Logger where
  id : Nat
  deriving DecidableEq, Repr

/-- Modelled from the spec: `config.Config`, the structured configuration
(`Config{Version:1}` in the scenarios). -/
structure Config where
  Version : Nat
  deriving DecidableEq, Repr

/-- Modelled from the spec: `context.Context`, the caller's cancellation/deadline
context, passed through to the fetch untouched. -/
structure Context where
  id : Nat
  deriving DecidableEq, Repr

/-- A non-nil Go `error` value. -/
structure Error where
  msg : String
  deriving DecidableEq, Repr

/-- Modelled from the spec: `config.ConfigMapManager`, "constructed from
`(cluster_client, app_name)`"; the record keeps the two constructor arguments. -/
structure ConfigMapManager where
  kube : Option Kube
  name : String
  deriving DecidableEq, Repr

/-- Modelled from the spec: `config.NewConfigMapManager(kube, name)`. -/
def NewConfigMapManager (kube : Option Kube) (name : String) : ConfigMapManager :=
  { kube := kube, name := name }

/-- One invocation of `mgr.GetConfig(ctx)`: the receiver and the argument. -/
structure FetchCall where
  mgr : ConfigMapManager
  ctx : Context
  deriving DecidableEq, Repr

/-- The Go result pair `(*config.Config, error)` of `mgr.GetConfig(ctx)`. -/
structure FetchResult where
  cfg : Option Config
  err : Option Error
  deriving DecidableEq, Repr

/-- Behaviour of the configuration manager's fetch: the answer to a call, given the
fetches that were issued before it.  Any deterministic or history-dependent
collaborator is an inhabitant. -/
abbrev Cluster := List FetchCall → ConfigMapManager → Context → FetchResult

/-! ## Effects -/

/-- The part of the outside world `GetConfig` can touch. -/
structure World where
  /-- texts written to `os.Stderr`, oldest first, one entry per `Fprintf` call -/
  stderr : List String
  /-- invocations of the manager's fetch, oldest first -/
  fetches : List FetchCall
  deriving DecidableEq, Repr

/-- Expansion of a format over string operands: `%s` consumes the next operand and
`%%` is a literal percent sign, as in Go's `fmt`; a `%s` without operand yields
`%!s(MISSING)`.  Other verbs are outside the fragment used by this package and are
copied through. -/
def sprintfChars : List Char → List String → List Char
  | [], _ => []
  | [c], _ => [c]
  | c :: d :: rest, args =>
    if c = '%' then
      if d = 's' then
        match args with
        | a :: more => a.data ++ sprintfChars rest more
        | [] => "%!s(MISSING)".data ++ sprintfChars rest []
      else if d = '%' then '%' :: sprintfChars rest args
      else c :: sprintfChars (d :: rest) args
    else c :: sprintfChars (d :: rest) args

/-- `fmt.Sprintf` restricted to string operands. -/
def Sprintf (format : String) (args : List String) : String :=
  String.mk (sprintfChars format.data args)

/-- The raw string literal passed to `fmt.Fprintf(os.Stderr, ...)` in `GetConfig`. -/
def diagnosticFormat : String :=
  "\nUnable to find the configuration in the cluster, or the configuration is invalid.\nPlease refer to the subcommand \"%s config\" to manage installer's\nconfiguration for the target cluster.\n\n\t$ %s config --help\n\t\t"

/-- `fmt.Fprintf(os.Stderr, format, args...)`: one write to standard error. -/
def Fprintf_stderr (w : World) (format : String) (args : List String) : World :=
  { w with stderr := w.stderr ++ [Sprintf format args] }

/-! ## RunContext -/

/-- The `RunContext` struct. -/
structure RunContext where
  Kube : Option Kube
  ChartFS : Option ChartFS
  Logger : Option Logger
  Config : Option Config
  appName : String
  deriving DecidableEq, Repr

/-- `NewRunContext(appName, kube, cfs, logger)`: `Config` is left nil. -/
def NewRunContext (appName : String) (kube : Option Kube) (cfs : Option ChartFS)
    (logger : Option Logger) : RunContext :=
  { Kube := kube, ChartFS := cfs, Logger := logger, Config := none, appName := appName }

/-- What a `GetConfig` call leaves behind: the returned pair, the receiver after the
call, and the world after the call. -/
structure Outcome where
  cfg : Option Config
  err : Option Error
  rc : RunContext
  world : World
  deriving DecidableEq, Repr

/-- `(rc *RunContext) GetConfig(ctx)`. -/
def RunContext.GetConfig (cluster : Cluster) (rc : RunContext) (w : World) (ctx : Context) :
    Outcome :=
  match rc.Config with
  | some c => { cfg := some c, err := none, rc := rc, world := w }
  | none =>
    let mgr := NewConfigMapManager rc.Kube rc.appName
    let r := cluster w.fetches mgr ctx
    let w1 : World := { w with fetches := w.fetches ++ [{ mgr := mgr, ctx := ctx }] }
    match r.err with
    | some e =>
      { cfg := none, err := some e, rc := rc,
        world := Fprintf_stderr w1 diagnosticFormat [rc.appName, rc.appName] }
    | none =>
      let rc1 : RunContext := { rc with Config := r.cfg }
      { cfg := rc1.Config, err := none, rc := rc1, world := w1 }

/-- A succession of `GetConfig` calls on the same receiver, one per context given;
the returned pairs are collected oldest first. -/
def getConfigs (cluster : Cluster) :
    List Context → RunContext → World → List (Option Config × Option Error) × RunContext × World
  | [], rc, w => ([], rc, w)
  | ctx :: rest, rc, w =>
    let o := RunContext.GetConfig cluster rc w ctx
    let t := getConfigs cluster rest o.rc o.world
    ((o.cfg, o.err) :: t.1, t.2.1, t.2.2)

/-! ## Whitespace-insensitive comparison of texts -/

/-- Space, tab, newline and carriage return. -/
def isSpaceChar (c : Char) : Bool :=
  c = ' ' || c = '\t' || c = '\n' || c = '\r'

/-- Replace every maximal run of whitespace by one space; with `prev = true` the
text is taken to follow whitespace, so a leading run disappears. -/
def squeeze : Bool → List Char → List Char
  | _, [] => []
  | prev, c :: cs =>
    if isSpaceChar c then
      if prev then squeeze true cs else ' ' :: squeeze true cs
    else c :: squeeze false cs

/-- Remove trailing whitespace. -/
def trimRight (l : List Char) : List Char :=
  (l.reverse.dropWhile isSpaceChar).reverse

/-- Canonical form of a text modulo whitespace: no leading or trailing whitespace,
each inner run a single space. -/
def normalizeSpace (s : String) : String :=
  String.mk (squeeze true (trimRight s.data))

/-- The fixed operator guidance with the app name in its two places, on one line. -/
def guidance (n : String) : String :=
  "Unable to find the configuration in the cluster, or the configuration is invalid. Please refer to the subcommand \"" ++ n ++ " config\" to manage installer's configuration for the target cluster. $ " ++ n ++ " config --help"

/-! ## Pieces of the diagnostic text and sample collaborators -/

/-- The three literal pieces of `diagnosticFormat` around its two `%s` verbs. -/
def diagHead : List Char :=
  "\nUnable to find the configuration in the cluster, or the configuration is invalid.\nPlease refer to the subcommand \"".data

def diagMiddle : List Char :=
  " config\" to manage installer's\nconfiguration for the target cluster.\n\n\t$ ".data

def diagTail : List Char :=
  " config --help\n\t\t".data

/-- The three literal pieces of `guidance` around the app name. -/
def guideHead : List Char :=
  "Unable to find the configuration in the cluster, or the configuration is invalid. Please refer to the subcommand \"".data

def guideMiddle : List Char :=
  " config\" to manage installer's configuration for the target cluster. $ ".data

def guideTail : List Char :=
  " config --help".data

/-- Whether a text ends in whitespace; `prev` answers for the empty text. -/
def lastIsSpace : Bool → List Char → Bool
  | prev, [] => prev
  | _, c :: cs => lastIsSpace (isSpaceChar c) cs

/-- A collaborator that fails on its first call and answers `Config{Version:1}` afterwards. -/
def failsOnce : Cluster := fun earlier _ _ =>
  if earlier.length = 0 then { cfg := none, err := some ⟨"NotFound"⟩ }
  else { cfg := some ⟨1⟩, err := none }

/-- A collaborator that only knows the installer named `helmet`. -/
def knowsHelmet : Cluster := fun _ mgr _ =>
  if mgr.name = "helmet" then { cfg := some ⟨1⟩, err := none }
  else { cfg := none, err := some ⟨"NotFound"⟩ }

/-! ## Helper lemmas -/

theorem getConfig_of_present (cluster : Cluster) (rc : RunContext) (w : World) (ctx : Context)
    (c : Config) (h : rc.Config = some c) :
    RunContext.GetConfig cluster rc w ctx = { cfg := some c, err := none, rc := rc, world := w } := by
  simp [RunContext.GetConfig, h]

theorem getConfig_of_failure (cluster : Cluster) (rc : RunContext) (w : World) (ctx : Context)
    (e : Error) (hmiss : rc.Config = none)
    (hfetch : (cluster w.fetches (NewConfigMapManager rc.Kube rc.appName) ctx).err = some e) :
    RunContext.GetConfig cluster rc w ctx =
      { cfg := none, err := some e, rc := rc,
        world := Fprintf_stderr
          { w with fetches := w.fetches ++ [{ mgr := NewConfigMapManager rc.Kube rc.appName, ctx := ctx }] }
          diagnosticFormat [rc.appName, rc.appName] } := by
  simp [RunContext.GetConfig, hmiss, hfetch]

theorem getConfig_of_success (cluster : Cluster) (rc : RunContext) (w : World) (ctx : Context)
    (hmiss : rc.Config = none)
    (hfetch : (cluster w.fetches (NewConfigMapManager rc.Kube rc.appName) ctx).err = none) :
    RunContext.GetConfig cluster rc w ctx =
      { cfg := (cluster w.fetches (NewConfigMapManager rc.Kube rc.appName) ctx).cfg, err := none,
        rc := { rc with Config := (cluster w.fetches (NewConfigMapManager rc.Kube rc.appName) ctx).cfg },
        world := { w with fetches := w.fetches ++ [{ mgr := NewConfigMapManager rc.Kube rc.appName, ctx := ctx }] } } := by
  simp [RunContext.GetConfig, hmiss, hfetch]

theorem getConfigs_of_present (cluster : Cluster) (ctxs : List Context) (rc : RunContext)
    (w : World) (c : Config) (h : rc.Config = some c) :
    getConfigs cluster ctxs rc w = (ctxs.map (fun _ => (some c, none)), rc, w) := by
  induction ctxs with
  | nil => simp [getConfigs]
  | cons ctx rest ih => simp [getConfigs, getConfig_of_present cluster rc w ctx c h, ih]

theorem getConfigs_cons (cluster : Cluster) (ctx : Context) (rest : List Context)
    (rc : RunContext) (w : World) :
    getConfigs cluster (ctx :: rest) rc w =
      (((RunContext.GetConfig cluster rc w ctx).cfg, (RunContext.GetConfig cluster rc w ctx).err) ::
          (getConfigs cluster rest (RunContext.GetConfig cluster rc w ctx).rc
            (RunContext.GetConfig cluster rc w ctx).world).1,
        (getConfigs cluster rest (RunContext.GetConfig cluster rc w ctx).rc
            (RunContext.GetConfig cluster rc w ctx).world).2.1,
        (getConfigs cluster rest (RunContext.GetConfig cluster rc w ctx).rc
            (RunContext.GetConfig cluster rc w ctx).world).2.2) := rfl

/-! ## Construction -/

/-- C8: `NewRunContext` is total and returns a RunContext whose Config is nil and whose
Kube, ChartFS, Logger and appName are exactly the arguments, nil handles included. -/
theorem C8_newRunContext_fields (appName : String) (kube : Option Kube) (cfs : Option ChartFS)
    (logger : Option Logger) :
    (NewRunContext appName kube cfs logger).Config = none ∧
    (NewRunContext appName kube cfs logger).Kube = kube ∧
    (NewRunContext appName kube cfs logger).ChartFS = cfs ∧
    (NewRunContext appName kube cfs logger).Logger = logger ∧
    (NewRunContext appName kube cfs logger).appName = appName := by
  simp [NewRunContext]

/-! ## The accessor: single call -/

/-- C1: cache hit. When `rc.Config` is non-nil, `GetConfig` returns `rc.Config` with a nil
error, leaves the world untouched (no fetch issued, nothing written to stderr) and
leaves `rc` as it was, for every behaviour of the collaborator. -/
theorem C1_cache_hit (cluster : Cluster) (rc : RunContext) (w : World) (ctx : Context)
    (h : rc.Config ≠ none) :
    RunContext.GetConfig cluster rc w ctx =
      { cfg := rc.Config, err := none, rc := rc, world := w } := by
  obtain ⟨c, hc⟩ := Option.ne_none_iff_exists'.mp h
  rw [getConfig_of_present cluster rc w ctx c hc, hc]

theorem C1_cache_hit_witness :
    ({ Kube := none, ChartFS := none, Logger := none, Config := some ⟨1⟩, appName := "helmet" } :
        RunContext).Config ≠ none ∧
    RunContext.GetConfig (fun _ _ _ => { cfg := some ⟨7⟩, err := some ⟨"boom"⟩ })
        { Kube := none, ChartFS := none, Logger := none, Config := some ⟨1⟩, appName := "helmet" }
        { stderr := [], fetches := [] } ⟨0⟩ =
      { cfg := some ⟨1⟩, err := none,
        rc := { Kube := none, ChartFS := none, Logger := none, Config := some ⟨1⟩, appName := "helmet" },
        world := { stderr := [], fetches := [] } } :=
  ⟨by simp, C1_cache_hit _ _ _ _ (by simp)⟩

/-- C2: success on a cache miss. With `rc.Config` nil and a fetch answering `(cfg, nil)`,
`GetConfig` returns `(cfg, nil)`, the receiver becomes `rc` with `Config := cfg` (Kube,
ChartFS, Logger and appName as before), the fetch is logged once, and stderr is untouched. -/
theorem C2_success_on_miss (cluster : Cluster) (rc : RunContext) (w : World) (ctx : Context)
    (cfg : Option Config) (hmiss : rc.Config = none)
    (hfetch : cluster w.fetches (NewConfigMapManager rc.Kube rc.appName) ctx =
      { cfg := cfg, err := none }) :
    (RunContext.GetConfig cluster rc w ctx).cfg = cfg ∧
    (RunContext.GetConfig cluster rc w ctx).err = none ∧
    (RunContext.GetConfig cluster rc w ctx).rc = { rc with Config := cfg } ∧
    (RunContext.GetConfig cluster rc w ctx).rc.Kube = rc.Kube ∧
    (RunContext.GetConfig cluster rc w ctx).rc.ChartFS = rc.ChartFS ∧
    (RunContext.GetConfig cluster rc w ctx).rc.Logger = rc.Logger ∧
    (RunContext.GetConfig cluster rc w ctx).rc.appName = rc.appName ∧
    (RunContext.GetConfig cluster rc w ctx).world.stderr = w.stderr ∧
    (RunContext.GetConfig cluster rc w ctx).world.fetches =
      w.fetches ++ [{ mgr := NewConfigMapManager rc.Kube rc.appName, ctx := ctx }] := by
  have herr : (cluster w.fetches (NewConfigMapManager rc.Kube rc.appName) ctx).err = none := by
    rw [hfetch]
  rw [getConfig_of_success cluster rc w ctx hmiss herr, hfetch]
  simp

theorem C2_success_on_miss_witness :
    (RunContext.GetConfig (fun _ _ _ => { cfg := some ⟨1⟩, err := none })
      (NewRunContext "helmet" (some ⟨1⟩) (some ⟨2⟩) (some ⟨3⟩)) { stderr := [], fetches := [] } ⟨0⟩).cfg
      = some ⟨1⟩ :=
  (C2_success_on_miss (fun _ _ _ => { cfg := some ⟨1⟩, err := none })
    (NewRunContext "helmet" (some ⟨1⟩) (some ⟨2⟩) (some ⟨3⟩)) { stderr := [], fetches := [] } ⟨0⟩
    (some ⟨1⟩) rfl rfl).1

/-- C3: error propagation. With `rc.Config` nil and a fetch failing with error `e`
(whatever configuration pointer accompanies it), `GetConfig` returns exactly `e` as its
error and a nil configuration. -/
theorem C3_error_propagation (cluster : Cluster) (rc : RunContext) (w : World) (ctx : Context)
    (e : Error) (hmiss : rc.Config = none)
    (hfetch : (cluster w.fetches (NewConfigMapManager rc.Kube rc.appName) ctx).err = some e) :
    (RunContext.GetConfig cluster rc w ctx).err = some e ∧
    (RunContext.GetConfig cluster rc w ctx).cfg = none := by
  rw [getConfig_of_failure cluster rc w ctx e hmiss hfetch]
  simp

theorem C3_error_propagation_witness :
    (RunContext.GetConfig (fun _ _ _ => { cfg := none, err := some ⟨"NotFound"⟩ })
      (NewRunContext "helmet" (some ⟨1⟩) (some ⟨2⟩) (some ⟨3⟩)) { stderr := [], fetches := [] } ⟨0⟩).err
      = some ⟨"NotFound"⟩ ∧
    (RunContext.GetConfig (fun _ _ _ => { cfg := none, err := some ⟨"NotFound"⟩ })
      (NewRunContext "helmet" (some ⟨1⟩) (some ⟨2⟩) (some ⟨3⟩)) { stderr := [], fetches := [] } ⟨0⟩).cfg
      = none :=
  C3_error_propagation (fun _ _ _ => { cfg := none, err := some ⟨"NotFound"⟩ })
    (NewRunContext "helmet" (some ⟨1⟩) (some ⟨2⟩) (some ⟨3⟩)) { stderr := [], fetches := [] } ⟨0⟩
    ⟨"NotFound"⟩ rfl rfl

theorem diagnosticFormat_split :
    diagnosticFormat.data =
      diagHead ++ ('%' :: 's' :: (diagMiddle ++ ('%' :: 's' :: (diagTail ++ [])))) := by
  rfl

theorem sprintfChars_literal (pre rest : List Char) (args : List String)
    (h : ∀ c ∈ pre, c ≠ '%') :
    sprintfChars (pre ++ rest) args = pre ++ sprintfChars rest args := by
  induction pre with
  | nil => rfl
  | cons c pre ih =>
    have hc : c ≠ '%' := h c (List.mem_cons_self c pre)
    have ih1 := ih (fun x hx => h x (List.mem_cons_of_mem c hx))
    cases hpr : pre ++ rest with
    | nil =>
      have h1 : pre = [] := (List.append_eq_nil.mp hpr).1
      have h2 : rest = [] := (List.append_eq_nil.mp hpr).2
      subst h1; subst h2
      simp [sprintfChars]
    | cons d tl =>
      rw [List.cons_append, hpr]
      rw [hpr] at ih1
      simp [sprintfChars, hc, ih1]

theorem sprintfChars_verb (rest : List Char) (a : String) (more : List String) :
    sprintfChars ('%' :: 's' :: rest) (a :: more) = a.data ++ sprintfChars rest more := by
  simp [sprintfChars]

theorem diagHead_literal : ∀ c ∈ diagHead, c ≠ '%' := by decide

theorem diagMiddle_literal : ∀ c ∈ diagMiddle, c ≠ '%' := by decide

theorem diagTail_literal : ∀ c ∈ diagTail, c ≠ '%' := by decide

theorem sprintf_diagnostic (n : String) :
    (Sprintf diagnosticFormat [n, n]).data =
      diagHead ++ (n.data ++ (diagMiddle ++ (n.data ++ diagTail))) := by
  show sprintfChars diagnosticFormat.data [n, n] = _
  rw [diagnosticFormat_split, sprintfChars_literal _ _ _ diagHead_literal, sprintfChars_verb,
    sprintfChars_literal _ _ _ diagMiddle_literal, sprintfChars_verb,
    sprintfChars_literal _ _ _ diagTail_literal]
  simp [sprintfChars]

theorem guidance_data (n : String) :
    (guidance n).data = guideHead ++ (n.data ++ (guideMiddle ++ (n.data ++ guideTail))) := by
  simp only [guidance, String.data_append, List.append_assoc]
  rfl

theorem squeeze_append (xs ys : List Char) :
    ∀ b : Bool, squeeze b (xs ++ ys) = squeeze b xs ++ squeeze (lastIsSpace b xs) ys := by
  induction xs with
  | nil => intro b; simp [squeeze, lastIsSpace]
  | cons c cs ih =>
    intro b
    by_cases hc : isSpaceChar c = true
    · cases b <;> simp [squeeze, lastIsSpace, hc, ih]
    · simp [squeeze, lastIsSpace, hc, ih]

theorem dropWhile_append_of_ne_nil (p : Char → Bool) (xs ys : List Char)
    (h : xs.dropWhile p ≠ []) : (xs ++ ys).dropWhile p = xs.dropWhile p ++ ys := by
  induction xs with
  | nil => simp at h
  | cons c cs ih =>
    by_cases hp : p c = true
    · simp only [List.cons_append, List.dropWhile_cons, hp, if_true] at h ⊢
      exact ih h
    · simp [List.dropWhile_cons, hp]

theorem trimRight_append (xs ys : List Char) (h : trimRight ys ≠ []) :
    trimRight (xs ++ ys) = xs ++ trimRight ys := by
  unfold trimRight at h ⊢
  have h1 : ys.reverse.dropWhile isSpaceChar ≠ [] := by
    intro h0; apply h; rw [h0]; rfl
  rw [List.reverse_append, dropWhile_append_of_ne_nil _ _ _ h1, List.reverse_append,
    List.reverse_reverse]

theorem normalizeSpace_diagnostic (n : String) :
    normalizeSpace (Sprintf diagnosticFormat [n, n]) = normalizeSpace (guidance n) := by
  have tailD : trimRight diagTail = guideTail := by decide
  have tailG : trimRight guideTail = guideTail := by decide
  have tailNe : guideTail ≠ [] := by decide
  have hD : trimRight (diagHead ++ (n.data ++ (diagMiddle ++ (n.data ++ diagTail)))) =
      diagHead ++ (n.data ++ (diagMiddle ++ (n.data ++ guideTail))) := by
    have e : diagHead ++ (n.data ++ (diagMiddle ++ (n.data ++ diagTail))) =
        (diagHead ++ (n.data ++ (diagMiddle ++ n.data))) ++ diagTail := by
      simp only [List.append_assoc]
    rw [e, trimRight_append _ _ (by rw [tailD]; exact tailNe), tailD]
    simp only [List.append_assoc]
  have hG : trimRight (guideHead ++ (n.data ++ (guideMiddle ++ (n.data ++ guideTail)))) =
      guideHead ++ (n.data ++ (guideMiddle ++ (n.data ++ guideTail))) := by
    have e : guideHead ++ (n.data ++ (guideMiddle ++ (n.data ++ guideTail))) =
        (guideHead ++ (n.data ++ (guideMiddle ++ n.data))) ++ guideTail := by
      simp only [List.append_assoc]
    rw [e, trimRight_append _ _ (by rw [tailG]; exact tailNe), tailG]
  have head1 : squeeze true diagHead = squeeze true guideHead := by decide
  have head2 : lastIsSpace true diagHead = lastIsSpace true guideHead := by decide
  have mid1 : ∀ b : Bool, squeeze b diagMiddle = squeeze b guideMiddle := by decide
  have mid2 : ∀ b : Bool, lastIsSpace b diagMiddle = lastIsSpace b guideMiddle := by decide
  unfold normalizeSpace
  rw [sprintf_diagnostic, guidance_data, hD, hG]
  congr 1
  rw [squeeze_append diagHead, squeeze_append guideHead, head1, head2,
    squeeze_append n.data, squeeze_append n.data (guideMiddle ++ _),
    squeeze_append diagMiddle, squeeze_append guideMiddle, mid1, mid2]

/-- C5: diagnostic text. For a RunContext built by `NewRunContext n ...`, a failing fetch
makes `GetConfig` append exactly one text to stderr; that text is the fixed message
with `n` inserted at its two `%s` places and nothing else substituted, it equals the
one-line guidance for `n` modulo whitespace, and it contains `n ++ " config --help"`. -/
theorem C5_diagnostic_text (cluster : Cluster) (n : String) (kube : Option Kube)
    (cfs : Option ChartFS) (logger : Option Logger) (w : World) (ctx : Context) (e : Error)
    (hfetch : (cluster w.fetches (NewConfigMapManager kube n) ctx).err = some e) :
    (RunContext.GetConfig cluster (NewRunContext n kube cfs logger) w ctx).world.stderr =
      w.stderr ++ [Sprintf diagnosticFormat [n, n]] ∧
    Sprintf diagnosticFormat [n, n] =
      "\nUnable to find the configuration in the cluster, or the configuration is invalid.\nPlease refer to the subcommand \"" ++ n ++ " config\" to manage installer's\nconfiguration for the target cluster.\n\n\t$ " ++ n ++ " config --help\n\t\t" ∧
    normalizeSpace (Sprintf diagnosticFormat [n, n]) = normalizeSpace (guidance n) ∧
    ∃ before after : String,
      Sprintf diagnosticFormat [n, n] = before ++ (n ++ " config --help") ++ after := by
  have hexact : Sprintf diagnosticFormat [n, n] =
      "\nUnable to find the configuration in the cluster, or the configuration is invalid.\nPlease refer to the subcommand \"" ++ n ++ " config\" to manage installer's\nconfiguration for the target cluster.\n\n\t$ " ++ n ++ " config --help\n\t\t" := by
    apply String.ext
    rw [sprintf_diagnostic]
    simp only [String.data_append, List.append_assoc]
    rfl
  refine ⟨?_, hexact, normalizeSpace_diagnostic n, ?_⟩
  · rw [getConfig_of_failure cluster (NewRunContext n kube cfs logger) w ctx e rfl hfetch]
    rfl
  · refine ⟨"\nUnable to find the configuration in the cluster, or the configuration is invalid.\nPlease refer to the subcommand \"" ++ n ++ " config\" to manage installer's\nconfiguration for the target cluster.\n\n\t$ ", "\n\t\t", ?_⟩
    rw [hexact]
    apply String.ext
    simp only [String.data_append, List.append_assoc]
    rfl

theorem C5_diagnostic_text_witness :
    (RunContext.GetConfig (fun _ _ _ => { cfg := none, err := some ⟨"NotFound"⟩ })
      (NewRunContext "helmet" none none none) { stderr := [], fetches := [] } ⟨0⟩).world.stderr =
      [] ++ [Sprintf diagnosticFormat ["helmet", "helmet"]] ∧
    normalizeSpace (Sprintf diagnosticFormat ["helmet", "helmet"]) =
      normalizeSpace (guidance "helmet") :=
  ⟨(C5_diagnostic_text (fun _ _ _ => { cfg := none, err := some ⟨"NotFound"⟩ }) "helmet"
      none none none { stderr := [], fetches := [] } ⟨0⟩ ⟨"NotFound"⟩ rfl).1,
   (C5_diagnostic_text (fun _ _ _ => { cfg := none, err := some ⟨"NotFound"⟩ }) "helmet"
      none none none { stderr := [], fetches := [] } ⟨0⟩ ⟨"NotFound"⟩ rfl).2.2.1⟩

/-! ## The accessor: successive calls -/

/-- C4: failure is not memoised. With `rc.Config` nil and a failing fetch, `GetConfig`
leaves `rc` unchanged in every field, so `Config` is still nil; the next call issues the
fetch again (the log grows by a second request) and returns what that second fetch
produces: its configuration with a nil error when it succeeds, its error with a nil
configuration when it fails. -/
theorem C4_failure_not_memoized (cluster : Cluster) (rc : RunContext) (w : World)
    (ctx ctx2 : Context) (e : Error) (hmiss : rc.Config = none)
    (hfetch : (cluster w.fetches (NewConfigMapManager rc.Kube rc.appName) ctx).err = some e) :
    (RunContext.GetConfig cluster rc w ctx).rc = rc ∧
    (RunContext.GetConfig cluster rc w ctx).rc.Config = none ∧
    (RunContext.GetConfig cluster (RunContext.GetConfig cluster rc w ctx).rc
        (RunContext.GetConfig cluster rc w ctx).world ctx2).world.fetches =
      w.fetches ++ [{ mgr := NewConfigMapManager rc.Kube rc.appName, ctx := ctx },
                    { mgr := NewConfigMapManager rc.Kube rc.appName, ctx := ctx2 }] ∧
    ((RunContext.GetConfig cluster (RunContext.GetConfig cluster rc w ctx).rc
        (RunContext.GetConfig cluster rc w ctx).world ctx2).cfg,
     (RunContext.GetConfig cluster (RunContext.GetConfig cluster rc w ctx).rc
        (RunContext.GetConfig cluster rc w ctx).world ctx2).err) =
      (match (cluster (w.fetches ++ [{ mgr := NewConfigMapManager rc.Kube rc.appName, ctx := ctx }])
          (NewConfigMapManager rc.Kube rc.appName) ctx2).err with
        | none => ((cluster (w.fetches ++ [{ mgr := NewConfigMapManager rc.Kube rc.appName, ctx := ctx }])
            (NewConfigMapManager rc.Kube rc.appName) ctx2).cfg, none)
        | some e2 => (none, some e2)) := by
  rw [getConfig_of_failure cluster rc w ctx e hmiss hfetch]
  refine ⟨rfl, hmiss, ?_, ?_⟩
  · cases h2 : (cluster (w.fetches ++ [{ mgr := NewConfigMapManager rc.Kube rc.appName, ctx := ctx }])
        (NewConfigMapManager rc.Kube rc.appName) ctx2).err with
    | none => simp [RunContext.GetConfig, hmiss, Fprintf_stderr, h2]
    | some e2 => simp [RunContext.GetConfig, hmiss, Fprintf_stderr, h2]
  · cases h2 : (cluster (w.fetches ++ [{ mgr := NewConfigMapManager rc.Kube rc.appName, ctx := ctx }])
        (NewConfigMapManager rc.Kube rc.appName) ctx2).err with
    | none => simp [RunContext.GetConfig, hmiss, Fprintf_stderr, h2]
    | some e2 => simp [RunContext.GetConfig, hmiss, Fprintf_stderr, h2]

theorem C4_failure_not_memoized_witness :
    (RunContext.GetConfig failsOnce
        (RunContext.GetConfig failsOnce (NewRunContext "helmet" none none none) ⟨[], []⟩ ⟨0⟩).rc
        (RunContext.GetConfig failsOnce (NewRunContext "helmet" none none none) ⟨[], []⟩ ⟨0⟩).world
        ⟨1⟩).world.fetches =
      [] ++ [{ mgr := NewConfigMapManager none "helmet", ctx := ⟨0⟩ },
             { mgr := NewConfigMapManager none "helmet", ctx := ⟨1⟩ }] :=
  (C4_failure_not_memoized failsOnce (NewRunContext "helmet" none none none) ⟨[], []⟩ ⟨0⟩ ⟨1⟩
    ⟨"NotFound"⟩ rfl rfl).2.2.1

/-- C6 as stated fails: against a collaborator that keeps failing, two successive calls
both fail (so no failure-then-success cycle intervenes) and the fetch is invoked
twice. -/
theorem C6_counterexample :
    (getConfigs (fun _ _ _ => { cfg := none, err := some ⟨"NotFound"⟩ }) [⟨0⟩, ⟨0⟩]
      (NewRunContext "helmet" (some ⟨1⟩) (some ⟨2⟩) (some ⟨3⟩)) ⟨[], []⟩).1 =
      [(none, some ⟨"NotFound"⟩), (none, some ⟨"NotFound"⟩)] ∧
    (getConfigs (fun _ _ _ => { cfg := none, err := some ⟨"NotFound"⟩ }) [⟨0⟩, ⟨0⟩]
      (NewRunContext "helmet" (some ⟨1⟩) (some ⟨2⟩) (some ⟨3⟩)) ⟨[], []⟩).2.2.fetches.length = 2 ∧
    ¬ (∀ (cluster : Cluster) (rc : RunContext) (w : World) (ctx1 ctx2 : Context),
        (getConfigs cluster [ctx1, ctx2] rc w).2.2.fetches.length ≤ w.fetches.length + 1) := by
  refine ⟨by decide, by decide, ?_⟩
  intro h
  have h1 := h (fun _ _ _ => { cfg := none, err := some ⟨"NotFound"⟩ })
    (NewRunContext "helmet" (some ⟨1⟩) (some ⟨2⟩) (some ⟨3⟩)) ⟨[], []⟩ ⟨0⟩ ⟨0⟩
  revert h1
  decide

/-- C6, amended: for two successive `GetConfig` calls, (1) when the first call returns a
non-nil configuration (a cache hit, or a fetch that succeeded with a non-nil
configuration), the fetch is invoked at most once in total across the two calls; and
(2) when Config is nil and the first call's fetch fails, the second call fetches again,
so the fetch is invoked exactly twice: the log grows by the two requests. -/
theorem C6_two_calls_fetch_count (cluster : Cluster) (rc : RunContext) (w : World)
    (ctx1 ctx2 : Context) :
    ((RunContext.GetConfig cluster rc w ctx1).cfg ≠ none →
      (getConfigs cluster [ctx1, ctx2] rc w).2.2.fetches.length ≤ w.fetches.length + 1) ∧
    (rc.Config = none →
      (cluster w.fetches (NewConfigMapManager rc.Kube rc.appName) ctx1).err ≠ none →
      (getConfigs cluster [ctx1, ctx2] rc w).2.2.fetches =
          w.fetches ++ [{ mgr := NewConfigMapManager rc.Kube rc.appName, ctx := ctx1 },
                        { mgr := NewConfigMapManager rc.Kube rc.appName, ctx := ctx2 }] ∧
      (getConfigs cluster [ctx1, ctx2] rc w).2.2.fetches.length = w.fetches.length + 2) := by
  constructor
  · intro h
    cases hc : rc.Config with
    | some c =>
      rw [getConfigs_of_present cluster [ctx1, ctx2] rc w c hc]
      simp
    | none =>
      cases he : (cluster w.fetches (NewConfigMapManager rc.Kube rc.appName) ctx1).err with
      | some e =>
        rw [getConfig_of_failure cluster rc w ctx1 e hc he] at h
        exact absurd rfl h
      | none =>
        rw [getConfig_of_success cluster rc w ctx1 hc he] at h
        obtain ⟨c, hcfg⟩ := Option.ne_none_iff_exists'.mp h
        rw [getConfigs_cons, getConfig_of_success cluster rc w ctx1 hc he,
          getConfigs_of_present cluster [ctx2] _ _ c hcfg]
        simp
  · intro hmiss hfail
    obtain ⟨e, he⟩ := Option.ne_none_iff_exists'.mp hfail
    have hlog : (getConfigs cluster [ctx1, ctx2] rc w).2.2.fetches =
        w.fetches ++ [{ mgr := NewConfigMapManager rc.Kube rc.appName, ctx := ctx1 },
                      { mgr := NewConfigMapManager rc.Kube rc.appName, ctx := ctx2 }] := by
      rw [getConfigs_cons, getConfig_of_failure cluster rc w ctx1 e hmiss he, getConfigs_cons]
      cases h2 : (cluster (w.fetches ++ [{ mgr := NewConfigMapManager rc.Kube rc.appName, ctx := ctx1 }])
          (NewConfigMapManager rc.Kube rc.appName) ctx2).err with
      | none => simp [getConfigs, RunContext.GetConfig, hmiss, Fprintf_stderr, h2]
      | some e2 => simp [getConfigs, RunContext.GetConfig, hmiss, Fprintf_stderr, h2]
    refine ⟨hlog, ?_⟩
    rw [hlog]
    simp

theorem C6_two_calls_fetch_count_witness :
    ((RunContext.GetConfig (fun _ _ _ => { cfg := some ⟨1⟩, err := none })
        (NewRunContext "helmet" none none none) ⟨[], []⟩ ⟨0⟩).cfg ≠ none ∧
      (getConfigs (fun _ _ _ => { cfg := some ⟨1⟩, err := none }) [⟨0⟩, ⟨1⟩]
        (NewRunContext "helmet" none none none) ⟨[], []⟩).2.2.fetches.length ≤ 0 + 1) ∧
    ((NewRunContext "helmet" none none none).Config = none ∧
      (failsOnce [] (NewConfigMapManager none "helmet") ⟨0⟩).err ≠ none ∧
      (getConfigs failsOnce [⟨0⟩, ⟨1⟩] (NewRunContext "helmet" none none none)
        ⟨[], []⟩).2.2.fetches.length = 0 + 2) :=
  ⟨⟨by decide, (C6_two_calls_fetch_count (fun _ _ _ => { cfg := some ⟨1⟩, err := none })
      (NewRunContext "helmet" none none none) ⟨[], []⟩ ⟨0⟩ ⟨1⟩).1 (by decide)⟩,
   ⟨rfl, by decide, ((C6_two_calls_fetch_count failsOnce
      (NewRunContext "helmet" none none none) ⟨[], []⟩ ⟨0⟩ ⟨1⟩).2 rfl (by decide)).2⟩⟩

/-- C7 as stated fails: a fetch that returns no error together with a nil configuration
counts as a success, yet `Config` is still nil afterwards, and the next call invokes the
collaborator again. -/
theorem C7_counterexample :
    (RunContext.GetConfig (fun _ _ _ => { cfg := none, err := none })
      (NewRunContext "helmet" (some ⟨1⟩) (some ⟨2⟩) (some ⟨3⟩)) ⟨[], []⟩ ⟨0⟩).err = none ∧
    (RunContext.GetConfig (fun _ _ _ => { cfg := none, err := none })
      (NewRunContext "helmet" (some ⟨1⟩) (some ⟨2⟩) (some ⟨3⟩)) ⟨[], []⟩ ⟨0⟩).rc.Config = none ∧
    (getConfigs (fun _ _ _ => { cfg := none, err := none }) [⟨0⟩, ⟨0⟩]
      (NewRunContext "helmet" (some ⟨1⟩) (some ⟨2⟩) (some ⟨3⟩)) ⟨[], []⟩).2.2.fetches.length = 2 := by
  decide

/-- C7, amended: after a `GetConfig` call whose fetch returns a non-nil configuration `c`
with no error, `Config` is `c` (non-nil), and every later succession of `GetConfig`
calls, under any behaviour of the collaborator, returns `(c, nil)` each time while the
receiver and the world (fetch log included) stay as they were. -/
theorem C7_stability_after_success (cluster later : Cluster) (rc : RunContext) (w : World)
    (ctx : Context) (c : Config) (ctxs : List Context) (hmiss : rc.Config = none)
    (hfetch : cluster w.fetches (NewConfigMapManager rc.Kube rc.appName) ctx =
      { cfg := some c, err := none }) :
    (RunContext.GetConfig cluster rc w ctx).cfg = some c ∧
    (RunContext.GetConfig cluster rc w ctx).err = none ∧
    (RunContext.GetConfig cluster rc w ctx).rc.Config = some c ∧
    (RunContext.GetConfig cluster rc w ctx).rc.Config ≠ none ∧
    getConfigs later ctxs (RunContext.GetConfig cluster rc w ctx).rc
        (RunContext.GetConfig cluster rc w ctx).world =
      (ctxs.map (fun _ => (some c, none)), (RunContext.GetConfig cluster rc w ctx).rc,
        (RunContext.GetConfig cluster rc w ctx).world) := by
  have herr : (cluster w.fetches (NewConfigMapManager rc.Kube rc.appName) ctx).err = none := by
    rw [hfetch]
  have hcfg : (RunContext.GetConfig cluster rc w ctx).rc.Config = some c := by
    rw [getConfig_of_success cluster rc w ctx hmiss herr, hfetch]
  refine ⟨?_, ?_, hcfg, ?_, getConfigs_of_present later ctxs _ _ c hcfg⟩
  · rw [getConfig_of_success cluster rc w ctx hmiss herr, hfetch]
  · rw [getConfig_of_success cluster rc w ctx hmiss herr]
  · rw [hcfg]; simp

theorem C7_stability_after_success_witness :
    (RunContext.GetConfig (fun _ _ _ => { cfg := some ⟨1⟩, err := none })
      (NewRunContext "helmet" none none none) ⟨[], []⟩ ⟨0⟩).cfg = some { Version := 1 } ∧
    (getConfigs (fun _ _ _ => { cfg := some ⟨2⟩, err := none }) [⟨1⟩]
        (RunContext.GetConfig (fun _ _ _ => { cfg := some ⟨1⟩, err := none })
          (NewRunContext "helmet" none none none) ⟨[], []⟩ ⟨0⟩).rc
        (RunContext.GetConfig (fun _ _ _ => { cfg := some ⟨1⟩, err := none })
          (NewRunContext "helmet" none none none) ⟨[], []⟩ ⟨0⟩).world).1 =
      [(some { Version := 1 }, none)] :=
  ⟨(C7_stability_after_success (fun _ _ _ => { cfg := some ⟨1⟩, err := none })
      (fun _ _ _ => { cfg := some ⟨2⟩, err := none }) (NewRunContext "helmet" none none none)
      ⟨[], []⟩ ⟨0⟩ ⟨1⟩ [⟨1⟩] rfl rfl).1,
   congrArg Prod.fst (C7_stability_after_success (fun _ _ _ => { cfg := some ⟨1⟩, err := none })
      (fun _ _ _ => { cfg := some ⟨2⟩, err := none }) (NewRunContext "helmet" none none none)
      ⟨[], []⟩ ⟨0⟩ ⟨1⟩ [⟨1⟩] rfl rfl).2.2.2.2⟩

/-- C9: the Config slot is one-way. For every step `GetConfig` (any collaborator answer):
a present Config is kept with the same value and no fetch is issued; a step that changes
Config starts from nil and ends non-nil (the only transition is Absent to Present); and
from a state with Config present, every succession of further steps keeps that value and
never extends the fetch log. -/
theorem C9_config_one_way (cluster : Cluster) (rc : RunContext) (w : World) (ctx : Context) :
    (rc.Config ≠ none →
      (RunContext.GetConfig cluster rc w ctx).rc.Config = rc.Config ∧
      (RunContext.GetConfig cluster rc w ctx).world.fetches = w.fetches) ∧
    ((RunContext.GetConfig cluster rc w ctx).rc.Config ≠ rc.Config →
      rc.Config = none ∧ (RunContext.GetConfig cluster rc w ctx).rc.Config ≠ none) ∧
    (∀ ctxs : List Context, rc.Config ≠ none →
      (getConfigs cluster ctxs rc w).2.1.Config = rc.Config ∧
      (getConfigs cluster ctxs rc w).2.2.fetches = w.fetches) := by
  refine ⟨?_, ?_, ?_⟩
  · intro h
    obtain ⟨c, hc⟩ := Option.ne_none_iff_exists'.mp h
    rw [getConfig_of_present cluster rc w ctx c hc]
    exact ⟨rfl, rfl⟩
  · intro h
    cases hc : rc.Config with
    | some c =>
      rw [getConfig_of_present cluster rc w ctx c hc] at h
      exact absurd rfl h
    | none =>
      refine ⟨rfl, ?_⟩
      rw [hc] at h
      exact h
  · intro ctxs h
    obtain ⟨c, hc⟩ := Option.ne_none_iff_exists'.mp h
    rw [getConfigs_of_present cluster ctxs rc w c hc]
    exact ⟨rfl, rfl⟩

theorem C9_config_one_way_witness :
    (getConfigs (fun _ _ _ => { cfg := some ⟨2⟩, err := none }) [⟨0⟩, ⟨1⟩]
      { Kube := none, ChartFS := none, Logger := none, Config := some ⟨1⟩, appName := "helmet" }
      ⟨[], []⟩).2.1.Config = some ⟨1⟩ ∧
    (getConfigs (fun _ _ _ => { cfg := some ⟨2⟩, err := none }) [⟨0⟩, ⟨1⟩]
      { Kube := none, ChartFS := none, Logger := none, Config := some ⟨1⟩, appName := "helmet" }
      ⟨[], []⟩).2.2.fetches = [] :=
  (C9_config_one_way (fun _ _ _ => { cfg := some ⟨2⟩, err := none })
    { Kube := none, ChartFS := none, Logger := none, Config := some ⟨1⟩, appName := "helmet" }
    ⟨[], []⟩ ⟨0⟩).2.2 [⟨0⟩, ⟨1⟩] (by simp)

/-- C10 as stated fails: two RunContexts that differ only in appName issue different
requests to the collaborator on a cache miss (the manager is constructed with the
appName), and against a collaborator that looks at the name the two runs differ in the
returned pair and in the resulting Config, not only in stderr. -/
theorem C10_counterexample :
    (RunContext.GetConfig knowsHelmet (NewRunContext "helmet" (some ⟨1⟩) none none) ⟨[], []⟩ ⟨0⟩).world.fetches
      = [{ mgr := { kube := some ⟨1⟩, name := "helmet" }, ctx := ⟨0⟩ }] ∧
    (RunContext.GetConfig knowsHelmet (NewRunContext "other" (some ⟨1⟩) none none) ⟨[], []⟩ ⟨0⟩).world.fetches
      = [{ mgr := { kube := some ⟨1⟩, name := "other" }, ctx := ⟨0⟩ }] ∧
    (RunContext.GetConfig knowsHelmet (NewRunContext "helmet" (some ⟨1⟩) none none) ⟨[], []⟩ ⟨0⟩).world.fetches
      ≠ (RunContext.GetConfig knowsHelmet (NewRunContext "other" (some ⟨1⟩) none none) ⟨[], []⟩ ⟨0⟩).world.fetches ∧
    (RunContext.GetConfig knowsHelmet (NewRunContext "helmet" (some ⟨1⟩) none none) ⟨[], []⟩ ⟨0⟩).rc.Config
      = some ⟨1⟩ ∧
    (RunContext.GetConfig knowsHelmet (NewRunContext "other" (some ⟨1⟩) none none) ⟨[], []⟩ ⟨0⟩).rc.Config
      = none ∧
    (RunContext.GetConfig knowsHelmet (NewRunContext "other" (some ⟨1⟩) none none) ⟨[], []⟩ ⟨0⟩).err
      = some ⟨"NotFound"⟩ := by
  decide

/-- C10, amended: appName formats the error message and is also the second argument of
`NewConfigMapManager`. For two RunContexts that differ only in appName (`n` and `m`), a
cache-miss `GetConfig` issues one fetch each, on managers built from the same Kube and the
respective appName, with the same context. Each run writes to stderr nothing when its
fetch succeeds and exactly the diagnostic formatted with its own appName when its fetch
fails, and keeps its own appName. If the collaborator answers the two requests alike,
the two runs return the same pair and leave the same Config, Kube, ChartFS and Logger, and
their stderr is either untouched in both or extended in both by the diagnostic for `n`
and for `m` respectively: they differ only in the appName carried by the diagnostic, the
logged request and the receiver. -/
theorem C10_appName_reaches_manager (cluster : Cluster) (rc : RunContext) (n m : String)
    (w : World) (ctx : Context) (hmiss : rc.Config = none) :
    (RunContext.GetConfig cluster { rc with appName := n } w ctx).world.fetches =
      w.fetches ++ [{ mgr := { kube := rc.Kube, name := n }, ctx := ctx }] ∧
    (RunContext.GetConfig cluster { rc with appName := m } w ctx).world.fetches =
      w.fetches ++ [{ mgr := { kube := rc.Kube, name := m }, ctx := ctx }] ∧
    (RunContext.GetConfig cluster { rc with appName := n } w ctx).world.stderr =
      (match (cluster w.fetches { kube := rc.Kube, name := n } ctx).err with
        | none => w.stderr
        | some _ => w.stderr ++ [Sprintf diagnosticFormat [n, n]]) ∧
    (RunContext.GetConfig cluster { rc with appName := m } w ctx).world.stderr =
      (match (cluster w.fetches { kube := rc.Kube, name := m } ctx).err with
        | none => w.stderr
        | some _ => w.stderr ++ [Sprintf diagnosticFormat [m, m]]) ∧
    (RunContext.GetConfig cluster { rc with appName := n } w ctx).rc.appName = n ∧
    (RunContext.GetConfig cluster { rc with appName := m } w ctx).rc.appName = m ∧
    (cluster w.fetches { kube := rc.Kube, name := n } ctx =
        cluster w.fetches { kube := rc.Kube, name := m } ctx →
      (RunContext.GetConfig cluster { rc with appName := n } w ctx).cfg =
        (RunContext.GetConfig cluster { rc with appName := m } w ctx).cfg ∧
      (RunContext.GetConfig cluster { rc with appName := n } w ctx).err =
        (RunContext.GetConfig cluster { rc with appName := m } w ctx).err ∧
      (RunContext.GetConfig cluster { rc with appName := n } w ctx).rc.Config =
        (RunContext.GetConfig cluster { rc with appName := m } w ctx).rc.Config ∧
      (RunContext.GetConfig cluster { rc with appName := n } w ctx).rc.Kube =
        (RunContext.GetConfig cluster { rc with appName := m } w ctx).rc.Kube ∧
      (RunContext.GetConfig cluster { rc with appName := n } w ctx).rc.ChartFS =
        (RunContext.GetConfig cluster { rc with appName := m } w ctx).rc.ChartFS ∧
      (RunContext.GetConfig cluster { rc with appName := n } w ctx).rc.Logger =
        (RunContext.GetConfig cluster { rc with appName := m } w ctx).rc.Logger ∧
      (((RunContext.GetConfig cluster { rc with appName := n } w ctx).world.stderr = w.stderr ∧
        (RunContext.GetConfig cluster { rc with appName := m } w ctx).world.stderr = w.stderr) ∨
       ((RunContext.GetConfig cluster { rc with appName := n } w ctx).world.stderr =
          w.stderr ++ [Sprintf diagnosticFormat [n, n]] ∧
        (RunContext.GetConfig cluster { rc with appName := m } w ctx).world.stderr =
          w.stderr ++ [Sprintf diagnosticFormat [m, m]]))) := by
  refine ⟨?_, ?_, ?_, ?_, ?_, ?_, ?_⟩
  · cases he : (cluster w.fetches { kube := rc.Kube, name := n } ctx).err <;>
      simp [RunContext.GetConfig, hmiss, NewConfigMapManager, Fprintf_stderr, he]
  · cases he : (cluster w.fetches { kube := rc.Kube, name := m } ctx).err <;>
      simp [RunContext.GetConfig, hmiss, NewConfigMapManager, Fprintf_stderr, he]
  · cases he : (cluster w.fetches { kube := rc.Kube, name := n } ctx).err <;>
      simp [RunContext.GetConfig, hmiss, NewConfigMapManager, Fprintf_stderr, he]
  · cases he : (cluster w.fetches { kube := rc.Kube, name := m } ctx).err <;>
      simp [RunContext.GetConfig, hmiss, NewConfigMapManager, Fprintf_stderr, he]
  · cases he : (cluster w.fetches { kube := rc.Kube, name := n } ctx).err <;>
      simp [RunContext.GetConfig, hmiss, NewConfigMapManager, Fprintf_stderr, he]
  · cases he : (cluster w.fetches { kube := rc.Kube, name := m } ctx).err <;>
      simp [RunContext.GetConfig, hmiss, NewConfigMapManager, Fprintf_stderr, he]
  · intro hsame
    cases he : (cluster w.fetches { kube := rc.Kube, name := m } ctx).err <;>
      simp [RunContext.GetConfig, hmiss, NewConfigMapManager, Fprintf_stderr, he, hsame]

theorem C10_appName_reaches_manager_witness :
    (RunContext.GetConfig knowsHelmet
      { (NewRunContext "x" (some ⟨1⟩) none none) with appName := "helmet" } ⟨[], []⟩ ⟨0⟩).world.fetches =
      [] ++ [{ mgr := { kube := some ⟨1⟩, name := "helmet" }, ctx := ⟨0⟩ }] ∧
    (RunContext.GetConfig (fun _ _ _ => { cfg := none, err := some ⟨"NotFound"⟩ })
      { (NewRunContext "x" (some ⟨1⟩) none none) with appName := "helmet" } ⟨[], []⟩ ⟨0⟩).err =
    (RunContext.GetConfig (fun _ _ _ => { cfg := none, err := some ⟨"NotFound"⟩ })
      { (NewRunContext "x" (some ⟨1⟩) none none) with appName := "other" } ⟨[], []⟩ ⟨0⟩).err :=
  ⟨(C10_appName_reaches_manager knowsHelmet (NewRunContext "x" (some ⟨1⟩) none none) "helmet" "other"
      ⟨[], []⟩ ⟨0⟩ rfl).1,
   ((C10_appName_reaches_manager (fun _ _ _ => { cfg := none, err := some ⟨"NotFound"⟩ })
      (NewRunContext "x" (some ⟨1⟩) none none) "helmet" "other"
      ⟨[], []⟩ ⟨0⟩ rfl).2.2.2.2.2.2 rfl).2.1⟩

end RunContextSpec
